import Mathlib

/-!
Verification development for the `chrism-mod-installer` repository
(`src/installer.py`).

The Python program is a one-shot installer: it downloads two ZIP archives,
validates and extracts them, relocates `.jar` files into a target directory
tree, and registers the installed pack in a JSON manifest file
(`modpacks.json`).  Below, each Python function is given a shallow embedding:

* JSON documents (`json.load` results) become the inductive type `Json`;
  Python `dict`s are association lists in insertion order, as `json.load`
  produces them and `json.dump` serialises them.
* Python exceptions become the `PyErr` error type and fallible code returns
  `Except PyErr _`.
* External effects (the HTTP response, the state of a file on disk, the
  listing of a directory) are passed in explicitly as values describing the
  outcome the outside world hands the program.

The embedded functions keep the Python names: `download_file`,
`is_valid_zip`, `extract_zip`, `move_jar_files`, `update_modpacks_json`,
`main`.
-/

/-- JSON values as produced by Python `json.load`: object fields keep
insertion order, numbers are abstracted to integers (the manifest never
stores fractional numbers). -/
inductive Json where
  | null : Json
  | bool (b : Bool) : Json
  | num (n : Int) : Json
  | str (s : String) : Json
  | arr (elems : List Json) : Json
  | obj (fields : List (String × Json)) : Json

/-- The Python exception kinds that the installer's code paths can raise.
`requestException` stands for `requests.exceptions.RequestException` (the
spec's `TransferError`), including its subclass `HTTPError` raised by
`raise_for_status`.  `fileNotFoundError` is the spec's `SourceMissingError`. -/
inductive PyErr where
  | requestException : PyErr
  | badZipFile : PyErr
  | fileNotFoundError : PyErr
  | keyError : PyErr
  | typeError : PyErr
  | osError : PyErr
  deriving DecidableEq

/-- First-match lookup in a Python dict modelled as an association list. -/
def assocLookup (fields : List (String × Json)) (k : String) : Option Json :=
  match fields with
  | [] => none
  | (a, b) :: t => if a = k then some b else assocLookup t k

/-- Python dict item assignment `d[k] = v`: an existing key keeps its
position and gets the new value, a fresh key is appended at the end. -/
def assocSet (fields : List (String × Json)) (k : String) (v : Json) :
    List (String × Json) :=
  match fields with
  | [] => [(k, v)]
  | (a, b) :: t => if a = k then (a, v) :: t else (a, b) :: assocSet t k v

/-- Python subscripting `j[k]` with a string key: a dict either yields the
value or raises `KeyError`; every other JSON value raises `TypeError`. -/
def getItem : Json → String → Except PyErr Json
  | Json.obj fields, k =>
    match assocLookup fields k with
    | some v => Except.ok v
    | none => Except.error PyErr.keyError
  | Json.arr _, _ => Except.error PyErr.typeError
  | Json.str _, _ => Except.error PyErr.typeError
  | Json.null, _ => Except.error PyErr.typeError
  | Json.bool _, _ => Except.error PyErr.typeError
  | Json.num _, _ => Except.error PyErr.typeError

/-- Whether `small` occurs as a contiguous sublist of `big` (Python substring
containment, spelled out on the character lists). -/
def containsSub (small : List Char) : List Char → Bool
  | [] => small.isEmpty
  | c :: t => small.isPrefixOf (c :: t) || containsSub small t

/-- The Python membership test `k in j` for a string `k`: key membership on
dicts, substring containment on strings, element equality on lists, and
`TypeError` on the remaining (non-container) values. -/
def pyContains (j : Json) (k : String) : Except PyErr Bool :=
  match j with
  | Json.obj fields => Except.ok (assocLookup fields k).isSome
  | Json.str s => Except.ok (containsSub k.data s.data)
  | Json.arr elems =>
    Except.ok (elems.any fun e =>
      match e with
      | Json.str t => t == k
      | _ => false)
  | _ => Except.error PyErr.typeError

/-- Python item assignment `j[k] = v` with a string key: only a dict
accepts it; every other JSON value raises `TypeError`. -/
def setItem : Json → String → Json → Except PyErr Json
  | Json.obj fields, k, v => Except.ok (Json.obj (assocSet fields k v))
  | Json.arr _, _, _ => Except.error PyErr.typeError
  | Json.str _, _, _ => Except.error PyErr.typeError
  | Json.null, _, _ => Except.error PyErr.typeError
  | Json.bool _, _, _ => Except.error PyErr.typeError
  | Json.num _, _, _ => Except.error PyErr.typeError

/-- The state of the manifest file on disk as `update_modpacks_json` finds
it: absent, present but not parseable as JSON (`json.load` raises
`JSONDecodeError`), or present with a parsed document. -/
inductive ManifestFile where
  | absent : ManifestFile
  | corrupt : ManifestFile
  | valid (doc : Json) : ManifestFile

/-- Lines 88-94 of `installer.py`: start from the default document
`modpacks_data` with an empty `packs` object, replace it by the parsed file
when the file exists and parses, and keep the default when the file is
absent or `json.load` raises `JSONDecodeError` (which is caught and only
logged). -/
def parseOrDefault : ManifestFile → Json
  | ManifestFile.valid doc => doc
  | _ => Json.obj [("packs", Json.obj [])]

/-- The record inserted for a new pack, field order as in lines 96-100. -/
def packRecord (modpack_name mod_loader version : String) : Json :=
  Json.obj [("name", Json.str modpack_name), ("version", Json.str version),
            ("modLoader", Json.str mod_loader)]

/-- Outcome of one `update_modpacks_json` call: the Python return (normal
`None` return carrying the final document, or a raised exception) together
with the writes performed on the manifest file.  Each write records the
document passed to `json.dump` and the `indent` argument it was called
with. -/
structure UpdateOutcome where
  result : Except PyErr Json
  writes : List (Json × Nat)

/-- Shallow embedding of `update_modpacks_json` (lines 85-109).  The
document is the parsed file or the default; `modpacks_data["packs"]` is
subscripted (raising on a document without that dict entry), the key is
tested for membership, a fresh key gets the record assigned, and the
(possibly unchanged) document is dumped with `indent=4`.  The surrounding
`except Exception` handler prints and re-raises, so exceptions propagate
unchanged; an exception before the `open(..., "w")` on line 104 means no
write happens. -/
def update_modpacks_json (m : ManifestFile)
    (modpack_key modpack_name mod_loader version : String) : UpdateOutcome :=
  match getItem (parseOrDefault m) "packs" with
  | Except.error e => { result := Except.error e, writes := [] }
  | Except.ok packs =>
    match pyContains packs modpack_key with
    | Except.error e => { result := Except.error e, writes := [] }
    | Except.ok true =>
      { result := Except.ok (parseOrDefault m),
        writes := [(parseOrDefault m, 4)] }
    | Except.ok false =>
      match setItem packs modpack_key (packRecord modpack_name mod_loader version) with
      | Except.error e => { result := Except.error e, writes := [] }
      | Except.ok packs2 =>
        match setItem (parseOrDefault m) "packs" packs2 with
        | Except.error e => { result := Except.error e, writes := [] }
        | Except.ok data2 => { result := Except.ok data2, writes := [(data2, 4)] }

/-- The manifest file state after a call: a completed call leaves the dumped
document on disk (`json.dump` output parses back to the same value), a call
that raised before the write leaves the file as it was. -/
def fileAfter (m : ManifestFile) (o : UpdateOutcome) : ManifestFile :=
  match o.result with
  | Except.ok d => ManifestFile.valid d
  | Except.error _ => m

/-- Whether the document already has this pack key registered: `"packs"`
subscripting succeeds and the membership test is true. -/
def keyPresent (j : Json) (modpack_key : String) : Bool :=
  match getItem j "packs" with
  | Except.ok packs =>
    match pyContains packs modpack_key with
    | Except.ok b => b
    | Except.error _ => false
  | Except.error _ => false

/-- What the outside world answers to `requests.get(url, stream=True)`:
a streamed success (declared content length and body chunks), a response
with a bad status (so `raise_for_status` raises `HTTPError`), or a
transport-level failure (a `RequestException` out of `requests.get`
itself). -/
inductive HttpOutcome where
  | ok (contentLength : Nat) (chunks : List (List Nat)) : HttpOutcome
  | httpError (status : Nat) : HttpOutcome
  | transportError : HttpOutcome
  deriving DecidableEq

/-- The `try` block of `download_file` (lines 16-32): on success every body
chunk is appended to the destination file; a bad status or transport
failure surfaces as a `RequestException`. -/
def download_file_attempt (url dest_path : String) (o : HttpOutcome) :
    Except PyErr (List Nat) :=
  match o with
  | HttpOutcome.ok _ chunks => Except.ok chunks.flatten
  | HttpOutcome.httpError _ => Except.error PyErr.requestException
  | HttpOutcome.transportError => Except.error PyErr.requestException

/-- Shallow embedding of `download_file` (lines 15-38): both `except`
clauses print the error and then `raise` again, so the wrapper returns the
attempt's outcome unchanged -- errors are re-raised, never swallowed. -/
def download_file (url dest_path : String) (o : HttpOutcome) :
    Except PyErr (List Nat) :=
  match download_file_attempt url dest_path o with
  | Except.ok written => Except.ok written
  | Except.error PyErr.requestException => Except.error PyErr.requestException
  | Except.error e => Except.error e

/-- What the outside world answers to `zipfile.ZipFile(path, "r")`:
it opens as a well-formed ZIP, raises `BadZipFile`, raises
`FileNotFoundError` because the path is missing, or raises some other
`OSError`. -/
inductive ZipFileState where
  | wellFormed : ZipFileState
  | malformed : ZipFileState
  | missing : ZipFileState
  | ioFailure : ZipFileState
  deriving DecidableEq

/-- Outcome of `zipfile.ZipFile(file_path, "r")` for a file in the given
state. -/
def zipOpen : ZipFileState → Except PyErr Unit
  | ZipFileState.wellFormed => Except.ok ()
  | ZipFileState.malformed => Except.error PyErr.badZipFile
  | ZipFileState.missing => Except.error PyErr.fileNotFoundError
  | ZipFileState.ioFailure => Except.error PyErr.osError

/-- Shallow embedding of `is_valid_zip` (lines 40-49): `True` when the file
opens as a ZIP, `False` on `BadZipFile`, and `False` (after logging) on any
other exception -- the function returns a boolean on every input and never
propagates an exception. -/
def is_valid_zip (file_path : String) (z : ZipFileState) : Bool :=
  match zipOpen z with
  | Except.ok _ => true
  | Except.error PyErr.badZipFile => false
  | Except.error _ => false

/-- Shallow embedding of `extract_zip` (lines 51-66): re-validate the
archive (raising `BadZipFile` when invalid, re-raised by the first `except`
clause), then extract every entry; `io` is the outcome the filesystem gives
the extraction loop, re-raised by the second `except` clause on failure. -/
def extract_zip (zip_path extract_folder : String) (z : ZipFileState)
    (io : Except PyErr Unit) : Except PyErr Unit :=
  if is_valid_zip zip_path z = false then Except.error PyErr.badZipFile
  else io

/-- Whether a file name ends in `.jar`: Python `file.endswith(".jar")`,
case-sensitive, spelled out as a suffix test on the character list. -/
def endsWithJar (s : String) : Bool :=
  ".jar".data.isSuffixOf s.data

/-- Result of a completed `move_jar_files` call: the names moved into the
destination (in listing order), the names left behind in the source, whether
`os.makedirs` was invoked on the destination, and whether the zero-matches
warning was printed. -/
structure MoveOutcome where
  moved : List String
  sourceAfter : List String
  destCreated : Bool
  warned : Bool
  deriving DecidableEq

/-- Shallow embedding of `move_jar_files` (lines 68-83).  `src` is the
directory listing the filesystem offers: `none` when the source folder does
not exist (`os.path.exists` is false, so `FileNotFoundError` is raised and
re-raised by the `except Exception` clause), otherwise the list of immediate
children.  Children ending in `.jar` are selected without recursion; zero
matches prints a warning and returns; otherwise the destination directory is
created with `exist_ok=True` and every match is moved. -/
def move_jar_files (src : Option (List String)) (destination_folder : String) :
    Except PyErr MoveOutcome :=
  match src with
  | none => Except.error PyErr.fileNotFoundError
  | some files =>
    let jar_files := files.filter fun f => endsWithJar f
    if jar_files.isEmpty then
      Except.ok { moved := [], sourceAfter := files, destCreated := false,
                  warned := true }
    else
      Except.ok { moved := jar_files,
                  sourceAfter := files.filter fun f => !(endsWithJar f),
                  destCreated := true, warned := false }

/-- The two fixed download URLs of `main` (lines 112-113). -/
def modpack_zip_url : String :=
  "https://next.buettner.tech/s/2e3Y7r6MTCeTCRL/download/mods.zip"

/-- The addons archive URL. -/
def addons_zip_url : String :=
  "https://next.buettner.tech/s/pdXPP5TJepyw6SZ/download/addons.zip"

/-- Destination directory for the modpack jars (line 116, relative to the
base path). -/
def modpack_path : String :=
  "modpacks/christmas2024/fabric/1.21.1/mods"

/-- Destination directory for the addon jars (line 117). -/
def addons_path : String :=
  "modpacks/christmas2024/addons"

/-- The pack key registered in the manifest (line 120). -/
def modpack_key : String := "christmas2024"

/-- The display name registered in the manifest (line 121). -/
def modpack_name : String := "Christmas 2024"

/-- The mod loader identifier registered in the manifest (line 122). -/
def mod_loader : String := "fabric"

/-- The version string registered in the manifest (line 123). -/
def version : String := "1.21.1"

/-- The stages of the orchestrator's pipeline, in the order `main` attempts
them. -/
inductive Stage where
  | checkPrereq : Stage
  | fetchModpack : Stage
  | validateModpack : Stage
  | extractModpack : Stage
  | relocateModpack : Stage
  | fetchAddons : Stage
  | validateAddons : Stage
  | extractAddons : Stage
  | relocateAddons : Stage
  | updateManifest : Stage
  deriving DecidableEq

/-- The full pipeline order, ending in the manifest update. -/
def stageOrder : List Stage :=
  [Stage.checkPrereq, Stage.fetchModpack, Stage.validateModpack,
   Stage.extractModpack, Stage.relocateModpack, Stage.fetchAddons,
   Stage.validateAddons, Stage.extractAddons, Stage.relocateAddons,
   Stage.updateManifest]

/-- Everything the outside world decides about one run of `main`: whether
the Labymod base directory exists, the HTTP outcomes of the two downloads,
the on-disk state of the two downloaded archives, the filesystem outcome of
each extraction loop, and the directory listings of the two extraction
folders as the relocation stage finds them. -/
structure Env where
  basePathExists : Bool
  modpackHttp : HttpOutcome
  modpackZip : ZipFileState
  modpackExtractIo : Except PyErr Unit
  modpackFiles : List String
  addonsHttp : HttpOutcome
  addonsZip : ZipFileState
  addonsExtractIo : Except PyErr Unit
  addonsFiles : List String

/-- Observable result of one run of `main`: whether the temporary directory
was created (`tempfile.mkdtemp`, line 130) and later removed
(`shutil.rmtree` in the `finally` block, lines 155-158), how many
`requests.get` calls were issued, which stages were attempted, the final
state of the manifest file, the `json.dump` writes performed on it, and
whether the success message of line 152 was reached. -/
structure MainResult where
  tempDirCreated : Bool
  tempDirRemoved : Bool
  networkRequests : Nat
  stages : List Stage
  manifest : ManifestFile
  manifestWrites : List (Json × Nat)
  success : Bool

/-- A run that failed inside the `try` block after `net` download attempts,
having attempted `st` stages: the exception is caught on line 153, the
`finally` block removes the temporary directory, and the manifest was never
touched. -/
def failRes (m0 : ManifestFile) (net : Nat) (st : List Stage) : MainResult :=
  { tempDirCreated := true, tempDirRemoved := true, networkRequests := net,
    stages := st, manifest := m0, manifestWrites := [], success := false }

/-- The `try` block of `main` (lines 132-152) for a run whose base-path
check already passed: fetch, validate, extract and relocate the modpack,
then the addons, then update the manifest; the first failure aborts the
remaining stages. -/
def runPipeline (env : Env) (m0 : ManifestFile) : MainResult :=
  match download_file modpack_zip_url "modpack.zip" env.modpackHttp with
  | Except.error _ => failRes m0 1 [Stage.checkPrereq, Stage.fetchModpack]
  | Except.ok _ =>
    if is_valid_zip "modpack.zip" env.modpackZip = false then
      failRes m0 1 [Stage.checkPrereq, Stage.fetchModpack, Stage.validateModpack]
    else
      match extract_zip "modpack.zip" "modpack" env.modpackZip env.modpackExtractIo with
      | Except.error _ =>
        failRes m0 1 [Stage.checkPrereq, Stage.fetchModpack,
                      Stage.validateModpack, Stage.extractModpack]
      | Except.ok _ =>
        match move_jar_files (some env.modpackFiles) modpack_path with
        | Except.error _ =>
          failRes m0 1 [Stage.checkPrereq, Stage.fetchModpack,
                        Stage.validateModpack, Stage.extractModpack,
                        Stage.relocateModpack]
        | Except.ok _ =>
          match download_file addons_zip_url "addons.zip" env.addonsHttp with
          | Except.error _ =>
            failRes m0 2 [Stage.checkPrereq, Stage.fetchModpack,
                          Stage.validateModpack, Stage.extractModpack,
                          Stage.relocateModpack, Stage.fetchAddons]
          | Except.ok _ =>
            if is_valid_zip "addons.zip" env.addonsZip = false then
              failRes m0 2 [Stage.checkPrereq, Stage.fetchModpack,
                            Stage.validateModpack, Stage.extractModpack,
                            Stage.relocateModpack, Stage.fetchAddons,
                            Stage.validateAddons]
            else
              match extract_zip "addons.zip" "addons" env.addonsZip env.addonsExtractIo with
              | Except.error _ =>
                failRes m0 2 [Stage.checkPrereq, Stage.fetchModpack,
                              Stage.validateModpack, Stage.extractModpack,
                              Stage.relocateModpack, Stage.fetchAddons,
                              Stage.validateAddons, Stage.extractAddons]
              | Except.ok _ =>
                match move_jar_files (some env.addonsFiles) addons_path with
                | Except.error _ =>
                  failRes m0 2 [Stage.checkPrereq, Stage.fetchModpack,
                                Stage.validateModpack, Stage.extractModpack,
                                Stage.relocateModpack, Stage.fetchAddons,
                                Stage.validateAddons, Stage.extractAddons,
                                Stage.relocateAddons]
                | Except.ok _ =>
                  match update_modpacks_json m0 modpack_key modpack_name mod_loader version with
                  | { result := Except.error _, writes := w } =>
                    { tempDirCreated := true, tempDirRemoved := true,
                      networkRequests := 2, stages := stageOrder,
                      manifest := m0, manifestWrites := w, success := false }
                  | { result := Except.ok d, writes := w } =>
                    { tempDirCreated := true, tempDirRemoved := true,
                      networkRequests := 2, stages := stageOrder,
                      manifest := ManifestFile.valid d, manifestWrites := w,
                      success := true }

namespace Installer

/-- Shallow embedding of `main` (lines 111-160).  The pre-flight check on
line 125 returns before `tempfile.mkdtemp` and before any network request
when the base path is missing; otherwise the temporary directory is created,
the `try` block runs, and the `finally` block removes the directory on every
exit path. -/
def main (env : Env) (m0 : ManifestFile) : MainResult :=
  if env.basePathExists then runPipeline env m0
  else
    { tempDirCreated := false, tempDirRemoved := false, networkRequests := 0,
      stages := [Stage.checkPrereq], manifest := m0, manifestWrites := [],
      success := false }

end Installer

/-- Whether an embedded Python call raised. -/
def exceptFailed {α : Type} : Except PyErr α → Bool
  | Except.ok _ => false
  | Except.error _ => true

/-- Whether, for this environment, some stage strictly before the manifest
update fails: a download raises, a downloaded archive is not a valid ZIP,
an extraction raises, or a relocation raises. -/
def preUpdateFailure (env : Env) : Bool :=
  exceptFailed (download_file modpack_zip_url "modpack.zip" env.modpackHttp) ||
  !(is_valid_zip "modpack.zip" env.modpackZip) ||
  exceptFailed (extract_zip "modpack.zip" "modpack" env.modpackZip env.modpackExtractIo) ||
  exceptFailed (move_jar_files (some env.modpackFiles) modpack_path) ||
  exceptFailed (download_file addons_zip_url "addons.zip" env.addonsHttp) ||
  !(is_valid_zip "addons.zip" env.addonsZip) ||
  exceptFailed (extract_zip "addons.zip" "addons" env.addonsZip env.addonsExtractIo) ||
  exceptFailed (move_jar_files (some env.addonsFiles) addons_path)

/-- Boolean prefix test on lists, used to state that the attempted stages
are an initial segment of the pipeline order. -/
def listIsInitialSegment {α : Type} [DecidableEq α] : List α → List α → Bool
  | [], _ => true
  | _ :: _, [] => false
  | a :: t, b :: u => a = b && listIsInitialSegment t u

/-- Successful subscripting means the value was a dict holding the key. -/
theorem getItem_ok_obj (j : Json) (s : String) (p : Json)
    (h : getItem j s = Except.ok p) :
    ∃ fs, j = Json.obj fs ∧ assocLookup fs s = some p := by
  cases j with
  | obj fields =>
    refine ⟨fields, rfl, ?_⟩
    cases hl : assocLookup fields s with
    | none => simp [getItem, hl] at h
    | some v => simp [getItem, hl] at h; rw [h]
  | null => simp [getItem] at h
  | bool b => simp [getItem] at h
  | num n => simp [getItem] at h
  | str s2 => simp [getItem] at h
  | arr xs => simp [getItem] at h

/-- Successful item assignment means the target was a dict. -/
theorem setItem_ok_obj (j : Json) (k : String) (v : Json) (j2 : Json)
    (h : setItem j k v = Except.ok j2) :
    ∃ fs, j = Json.obj fs ∧ j2 = Json.obj (assocSet fs k v) := by
  cases j with
  | obj fields =>
    refine ⟨fields, rfl, ?_⟩
    simp [setItem] at h
    rw [h]
  | null => simp [setItem] at h
  | bool b => simp [setItem] at h
  | num n => simp [setItem] at h
  | str s2 => simp [setItem] at h
  | arr xs => simp [setItem] at h

/-- Looking up the key just assigned yields the assigned value. -/
theorem assocLookup_assocSet_self (fields : List (String × Json)) (k : String)
    (v : Json) : assocLookup (assocSet fields k v) k = some v := by
  induction fields with
  | nil => simp [assocSet, assocLookup]
  | cons hd t ih =>
    obtain ⟨a, b⟩ := hd
    by_cases hak : a = k
    · simp [assocSet, assocLookup, hak]
    · simp [assocSet, assocLookup, hak, ih]

/-- A document that already registers the key passes through untouched, and
is still written out once with `indent=4`. -/
theorem update_keyPresent_noop (j : Json) (k n l v : String)
    (h : keyPresent j k = true) :
    update_modpacks_json (ManifestFile.valid j) k n l v =
      { result := Except.ok j, writes := [(j, 4)] } := by
  unfold keyPresent at h
  cases hg : getItem j "packs" with
  | error e => rw [hg] at h; simp at h
  | ok packs =>
    rw [hg] at h
    simp at h
    cases hc : pyContains packs k with
    | error e => rw [hc] at h; simp at h
    | ok b =>
      rw [hc] at h
      simp at h
      subst h
      unfold update_modpacks_json
      simp [parseOrDefault, hg, hc]

/-- A completed call leaves the key registered in the resulting document and
wrote exactly that document once with `indent=4`. -/
theorem update_ok_characterisation (m : ManifestFile) (k n l v : String)
    (d : Json) (h : (update_modpacks_json m k n l v).result = Except.ok d) :
    keyPresent d k = true ∧
      (update_modpacks_json m k n l v).writes = [(d, 4)] := by
  unfold update_modpacks_json at h ⊢
  cases hg : getItem (parseOrDefault m) "packs" with
  | error e => rw [hg] at h; simp at h
  | ok packs =>
    rw [hg] at h
    simp at h
    cases hc : pyContains packs k with
    | error e => rw [hc] at h; simp at h
    | ok b =>
      rw [hc] at h
      cases b with
      | true =>
        simp at h
        subst h
        constructor
        · simp [keyPresent, hg, hc]
        · simp [hg, hc]
      | false =>
        simp at h
        cases hs : setItem packs k (packRecord n l v) with
        | error e => rw [hs] at h; simp at h
        | ok packs2 =>
          rw [hs] at h
          simp at h
          cases hs2 : setItem (parseOrDefault m) "packs" packs2 with
          | error e => rw [hs2] at h; simp at h
          | ok data2 =>
            rw [hs2] at h
            simp at h
            subst h
            obtain ⟨fs, hfs, hlook⟩ := getItem_ok_obj _ _ _ hg
            obtain ⟨pfs, hpfs, hp2⟩ := setItem_ok_obj _ _ _ _ hs
            obtain ⟨fs2, hfs2, hd2⟩ := setItem_ok_obj _ _ _ _ hs2
            rw [hfs] at hfs2
            cases hfs2
            constructor
            · unfold keyPresent
              rw [hd2]
              simp [getItem, assocLookup_assocSet_self]
              rw [hp2]
              simp [pyContains, assocLookup_assocSet_self]
            · simp [hg, hc, hs, hs2]

/-- Claim C1: the Manifest Updater is idempotent with first-write-wins
semantics.  If a call on any manifest state completes with document `d1`
(leaving the file as the valid JSON document `d1`), then a second call with
the same entry completes with the very same document and leaves the file
the valid document `d1` again, and whenever the key was already present in
the parsed input document the input document passes through untouched. -/
theorem c1_manifest_updater_idempotent (m : ManifestFile) (k n l v : String)
    (d1 : Json)
    (h : (update_modpacks_json m k n l v).result = Except.ok d1) :
    (update_modpacks_json (ManifestFile.valid d1) k n l v).result = Except.ok d1 ∧
    fileAfter m (update_modpacks_json m k n l v) = ManifestFile.valid d1 ∧
    fileAfter (ManifestFile.valid d1)
        (update_modpacks_json (ManifestFile.valid d1) k n l v)
      = ManifestFile.valid d1 ∧
    (∀ j, m = ManifestFile.valid j → keyPresent j k = true →
      update_modpacks_json m k n l v =
        { result := Except.ok j, writes := [(j, 4)] } ∧ d1 = j) := by
  obtain ⟨hk, hw⟩ := update_ok_characterisation m k n l v d1 h
  have h2 := update_keyPresent_noop d1 k n l v hk
  refine ⟨?_, ?_, ?_, ?_⟩
  · rw [h2]
  · unfold fileAfter
    rw [h]
  · unfold fileAfter
    rw [h2]
  · intro j hm hkey
    subst hm
    have h3 := update_keyPresent_noop j k n l v hkey
    refine ⟨h3, ?_⟩
    rw [h3] at h
    simp at h
    exact h.symm

/-- Concrete instance of C1: after inserting the christmas2024 entry into an
absent manifest, applying the same entry again returns the stored document
unchanged. -/
theorem c1_manifest_updater_idempotent_witness :
    (update_modpacks_json
        (ManifestFile.valid (Json.obj [("packs", Json.obj [("christmas2024",
          packRecord "Christmas 2024" "fabric" "1.21.1")])]))
        "christmas2024" "Christmas 2024" "fabric" "1.21.1").result
      = Except.ok (Json.obj [("packs", Json.obj [("christmas2024",
          packRecord "Christmas 2024" "fabric" "1.21.1")])]) :=
  (c1_manifest_updater_idempotent ManifestFile.absent "christmas2024"
    "Christmas 2024" "fabric" "1.21.1" _ rfl).1

/-- Claim C2: on an absent manifest file, and equally on one whose contents
fail to parse as JSON, the Manifest Updater completes without raising and
stores the well-formed document holding exactly the newly inserted entry
under `packs`; the key is registered in the stored document. -/
theorem c2_manifest_updater_recovers (k n l v : String) :
    update_modpacks_json ManifestFile.absent k n l v =
      { result := Except.ok (Json.obj [("packs", Json.obj [(k, packRecord n l v)])]),
        writes := [(Json.obj [("packs", Json.obj [(k, packRecord n l v)])], 4)] } ∧
    update_modpacks_json ManifestFile.corrupt k n l v =
      { result := Except.ok (Json.obj [("packs", Json.obj [(k, packRecord n l v)])]),
        writes := [(Json.obj [("packs", Json.obj [(k, packRecord n l v)])], 4)] } ∧
    keyPresent (Json.obj [("packs", Json.obj [(k, packRecord n l v)])]) k = true := by
  refine ⟨rfl, rfl, ?_⟩
  simp [keyPresent, getItem, assocLookup, pyContains]

/-- Claim C7: whenever a call completes (in particular on a no-op insert,
where the parsed document already has the key and passes through
unchanged), the manifest file is rewritten exactly once, with the final
document handed to the JSON serialiser with `indent=4`. -/
theorem c7_manifest_updater_always_writes (m : ManifestFile)
    (k n l v : String) :
    (∀ d, (update_modpacks_json m k n l v).result = Except.ok d →
      (update_modpacks_json m k n l v).writes = [(d, 4)]) ∧
    (∀ j, m = ManifestFile.valid j → keyPresent j k = true →
      update_modpacks_json m k n l v =
        { result := Except.ok j, writes := [(j, 4)] }) := by
  constructor
  · intro d h
    exact (update_ok_characterisation m k n l v d h).2
  · intro j hm hk
    subst hm
    exact update_keyPresent_noop j k n l v hk

/-- Concrete instance of C7: a no-op insert (the key is already registered)
still writes the unchanged document once, with indent 4. -/
theorem c7_manifest_updater_always_writes_witness :
    update_modpacks_json
        (ManifestFile.valid (Json.obj [("packs", Json.obj [("christmas2024",
          Json.null)])])) "christmas2024" "Christmas 2024" "fabric" "1.21.1"
      = { result := Except.ok (Json.obj [("packs", Json.obj [("christmas2024",
            Json.null)])]),
          writes := [(Json.obj [("packs", Json.obj [("christmas2024",
            Json.null)])], 4)] } :=
  (c7_manifest_updater_always_writes
    (ManifestFile.valid (Json.obj [("packs", Json.obj [("christmas2024",
      Json.null)])])) "christmas2024" "Christmas 2024" "fabric" "1.21.1").2
    _ rfl rfl

/-- Claim C6: the Archive Validator is a total boolean function of the
file's state -- it returns `true` exactly when the file opens as a
well-formed ZIP container, and every exception other than `BadZipFile`
(for example a missing file) also yields `false` instead of propagating. -/
theorem c6_is_valid_zip_total (file_path : String) (z : ZipFileState) :
    (is_valid_zip file_path z = true ↔ zipOpen z = Except.ok ()) ∧
    (∀ e, zipOpen z = Except.error e → is_valid_zip file_path z = false) := by
  cases z <;> simp [is_valid_zip, zipOpen]

/-- Concrete instance of C6: a missing file (`FileNotFoundError`, an
exception distinct from `BadZipFile`) is reported as invalid, not
propagated. -/
theorem c6_is_valid_zip_total_witness :
    is_valid_zip "modpack.zip" ZipFileState.missing = false :=
  (c6_is_valid_zip_total "modpack.zip" ZipFileState.missing).2
    PyErr.fileNotFoundError rfl

/-- Whether the HTTP layer failed: a non-success status (`raise_for_status`
fires) or a transport-level failure. -/
def httpFailed : HttpOutcome → Bool
  | HttpOutcome.ok _ _ => false
  | HttpOutcome.httpError _ => true
  | HttpOutcome.transportError => true

/-- Claim C8: for every URL and destination path, a non-success HTTP status
or a transport failure makes the Fetcher fail with the `RequestException`
error (the spec's `TransferError`), and the wrapping handlers re-raise the
attempt's error unchanged rather than swallowing it. -/
theorem c8_download_file_raises (url dest_path : String) (o : HttpOutcome)
    (h : httpFailed o = true) :
    download_file url dest_path o = Except.error PyErr.requestException ∧
    download_file url dest_path o = download_file_attempt url dest_path o := by
  cases o with
  | ok contentLength chunks => simp [httpFailed] at h
  | httpError status => exact ⟨rfl, rfl⟩
  | transportError => exact ⟨rfl, rfl⟩

/-- Concrete instance of C8: an HTTP 404 on the modpack URL surfaces as a
raised `RequestException`. -/
theorem c8_download_file_raises_witness :
    download_file modpack_zip_url "modpack.zip" (HttpOutcome.httpError 404)
        = Except.error PyErr.requestException ∧
    download_file modpack_zip_url "modpack.zip" (HttpOutcome.httpError 404)
        = download_file_attempt modpack_zip_url "modpack.zip"
            (HttpOutcome.httpError 404) :=
  c8_download_file_raises modpack_zip_url "modpack.zip"
    (HttpOutcome.httpError 404) rfl

/-- Claim C9: when the source directory does not exist, the Relocator
raises `FileNotFoundError` (the spec's `SourceMissingError`) to the caller
instead of returning normally. -/
theorem c9_move_jar_files_source_missing (destination_folder : String) :
    move_jar_files none destination_folder
      = Except.error PyErr.fileNotFoundError := rfl

/-- Claim C4: on an existing source directory the Relocator completes:
the moved entries are exactly the immediate children whose names end in the
case-sensitive suffix `.jar` (whatever else the listing holds stays), zero
matches is a warning no-op that touches nothing and creates no directory,
and with at least one match the destination directory tree is created and
the non-`.jar` children are what remains in the source. -/
theorem c4_move_jar_files_spec (files : List String)
    (destination_folder : String) :
    ∃ out, move_jar_files (some files) destination_folder = Except.ok out ∧
      out.moved = files.filter (fun f => endsWithJar f) ∧
      (∀ f, f ∈ out.moved ↔ f ∈ files ∧ endsWithJar f = true) ∧
      (out.moved = [] →
        out = { moved := [], sourceAfter := files, destCreated := false,
                warned := true }) ∧
      (out.moved ≠ [] → out.destCreated = true ∧ out.warned = false ∧
        out.sourceAfter = files.filter (fun f => !(endsWithJar f))) := by
  cases he : (files.filter fun f => endsWithJar f).isEmpty with
  | true =>
    have hl : files.filter (fun f => endsWithJar f) = [] :=
      List.isEmpty_iff.mp he
    refine ⟨{ moved := [], sourceAfter := files, destCreated := false,
              warned := true }, ?_, ?_, ?_, ?_, ?_⟩
    · simp [move_jar_files, he]
    · exact hl.symm
    · intro f
      simp only [List.mem_filter] at hl ⊢
      constructor
      · intro hf
        simp at hf
      · intro hf
        have : f ∈ files.filter (fun f => endsWithJar f) :=
          List.mem_filter.mpr hf
        rw [hl] at this
        simp at this
    · intro _
      rfl
    · intro hne
      exact absurd rfl hne
  | false =>
    refine ⟨{ moved := files.filter (fun f => endsWithJar f),
              sourceAfter := files.filter (fun f => !(endsWithJar f)),
              destCreated := true, warned := false }, ?_, ?_, ?_, ?_, ?_⟩
    · simp [move_jar_files, he]
    · rfl
    · intro f
      exact List.mem_filter
    · intro h0
      simp at h0
      have hfe : files.filter (fun f => endsWithJar f) = [] := by
        refine List.filter_eq_nil_iff.mpr ?_
        intro a ha
        simp [h0 a ha]
      rw [hfe] at he
      simp at he
    · intro _
      exact ⟨rfl, rfl, rfl⟩

/-- Concrete instance of C4: of the children `mod-a.jar`, `readme.txt`,
`mod-b.jar`, exactly the two `.jar` files are moved and the destination is
created; an all-text listing is a warning no-op. -/
theorem c4_move_jar_files_spec_witness :
    (∃ out, move_jar_files (some ["mod-a.jar", "readme.txt", "mod-b.jar"])
        "mods" = Except.ok out ∧ out.moved = ["mod-a.jar", "mod-b.jar"] ∧
        out.destCreated = true ∧ out.sourceAfter = ["readme.txt"]) ∧
    (∃ out, move_jar_files (some ["readme.txt"]) "mods" = Except.ok out ∧
        out.moved = [] ∧ out.warned = true ∧ out.destCreated = false) := by
  constructor
  · obtain ⟨out, h1, h2, h3, h4, h5⟩ :=
      c4_move_jar_files_spec ["mod-a.jar", "readme.txt", "mod-b.jar"] "mods"
    have hmv : out.moved = ["mod-a.jar", "mod-b.jar"] := by rw [h2]; decide
    obtain ⟨hc, hw, hs⟩ := h5 (by rw [hmv]; decide)
    refine ⟨out, h1, hmv, hc, ?_⟩
    rw [hs]
    decide
  · obtain ⟨out, h1, h2, h3, h4, h5⟩ :=
      c4_move_jar_files_spec ["readme.txt"] "mods"
    have hmv : out.moved = [] := by rw [h2]; decide
    have h0 := h4 hmv
    exact ⟨out, h1, hmv, by rw [h0], by rw [h0]⟩

/-- Claim C5: when the Labymod base installation directory does not exist,
`main` stops at the pre-flight check: no temporary directory is created, no
network request is made, no later stage is attempted, and the manifest is
untouched. -/
theorem c5_main_aborts_without_prerequisite (env : Env) (m0 : ManifestFile)
    (h : env.basePathExists = false) :
    Installer.main env m0 =
      { tempDirCreated := false, tempDirRemoved := false,
        networkRequests := 0, stages := [Stage.checkPrereq], manifest := m0,
        manifestWrites := [], success := false } := by
  simp [Installer.main, h]

/-- An environment whose base directory is missing, all other outcomes
benign. -/
def envNoBase : Env :=
  { basePathExists := false, modpackHttp := HttpOutcome.ok 0 [],
    modpackZip := ZipFileState.wellFormed, modpackExtractIo := Except.ok (),
    modpackFiles := [], addonsHttp := HttpOutcome.ok 0 [],
    addonsZip := ZipFileState.wellFormed, addonsExtractIo := Except.ok (),
    addonsFiles := [] }

/-- Concrete instance of C5: with the base directory absent, the run makes
no temporary directory and no network request. -/
theorem c5_main_aborts_without_prerequisite_witness :
    Installer.main envNoBase ManifestFile.absent =
      { tempDirCreated := false, tempDirRemoved := false,
        networkRequests := 0, stages := [Stage.checkPrereq],
        manifest := ManifestFile.absent, manifestWrites := [],
        success := false } :=
  c5_main_aborts_without_prerequisite envNoBase ManifestFile.absent rfl

/-- Claim C3: if any stage before the manifest update fails (a download
raises, a downloaded archive is not a valid ZIP, an extraction raises, or a
relocation raises), the run stops there: the manifest file is left exactly
as it was, never written; the temporary directory, created at the start of
the run, is removed on this exit path; the attempted stages are an initial
segment of the pipeline that never reaches the manifest update; and the run
ends in failure. -/
theorem c3_failure_before_update_preserves_manifest (env : Env)
    (m0 : ManifestFile) (hb : env.basePathExists = true)
    (hf : preUpdateFailure env = true) :
    (Installer.main env m0).manifest = m0 ∧
    (Installer.main env m0).manifestWrites = [] ∧
    (Installer.main env m0).tempDirCreated = true ∧
    (Installer.main env m0).tempDirRemoved = true ∧
    (Installer.main env m0).stages.contains Stage.updateManifest = false ∧
    listIsInitialSegment (Installer.main env m0).stages stageOrder = true ∧
    (Installer.main env m0).success = false := by
  have hmain : Installer.main env m0 = runPipeline env m0 := by
    simp [Installer.main, hb]
  rw [hmain]
  unfold runPipeline
  cases hd1 : download_file modpack_zip_url "modpack.zip" env.modpackHttp with
  | error e1 => exact ⟨rfl, rfl, rfl, rfl, rfl, rfl, rfl⟩
  | ok b1 =>
    cases hv1 : is_valid_zip "modpack.zip" env.modpackZip with
    | false => exact ⟨rfl, rfl, rfl, rfl, rfl, rfl, rfl⟩
    | true =>
      cases he1 : extract_zip "modpack.zip" "modpack" env.modpackZip
          env.modpackExtractIo with
      | error e2 => exact ⟨rfl, rfl, rfl, rfl, rfl, rfl, rfl⟩
      | ok u1 =>
        cases hm1 : move_jar_files (some env.modpackFiles) modpack_path with
        | error e3 => exact ⟨rfl, rfl, rfl, rfl, rfl, rfl, rfl⟩
        | ok o1 =>
          cases hd2 : download_file addons_zip_url "addons.zip" env.addonsHttp with
          | error e4 => exact ⟨rfl, rfl, rfl, rfl, rfl, rfl, rfl⟩
          | ok b2 =>
            cases hv2 : is_valid_zip "addons.zip" env.addonsZip with
            | false => exact ⟨rfl, rfl, rfl, rfl, rfl, rfl, rfl⟩
            | true =>
              cases he2 : extract_zip "addons.zip" "addons" env.addonsZip
                  env.addonsExtractIo with
              | error e5 => exact ⟨rfl, rfl, rfl, rfl, rfl, rfl, rfl⟩
              | ok u2 =>
                cases hm2 : move_jar_files (some env.addonsFiles) addons_path with
                | error e6 => exact ⟨rfl, rfl, rfl, rfl, rfl, rfl, rfl⟩
                | ok o2 =>
                  refine absurd hf ?_
                  simp [preUpdateFailure, exceptFailed, hd1, hv1, he1, hm1,
                        hd2, hv2, he2, hm2]

/-- An environment whose modpack download answers HTTP 404 (the base
directory exists, so the run enters the pipeline). -/
def env404 : Env :=
  { basePathExists := true, modpackHttp := HttpOutcome.httpError 404,
    modpackZip := ZipFileState.missing, modpackExtractIo := Except.ok (),
    modpackFiles := [], addonsHttp := HttpOutcome.transportError,
    addonsZip := ZipFileState.missing, addonsExtractIo := Except.ok (),
    addonsFiles := [] }

/-- Concrete instance of C3: a 404 on the first download aborts the run
with the manifest untouched, no manifest write, the temporary directory
created and removed, and the manifest-update stage never attempted. -/
theorem c3_failure_before_update_preserves_manifest_witness :
    (Installer.main env404 ManifestFile.absent).manifest = ManifestFile.absent ∧
    (Installer.main env404 ManifestFile.absent).manifestWrites = [] ∧
    (Installer.main env404 ManifestFile.absent).tempDirCreated = true ∧
    (Installer.main env404 ManifestFile.absent).tempDirRemoved = true ∧
    (Installer.main env404 ManifestFile.absent).stages.contains
        Stage.updateManifest = false ∧
    listIsInitialSegment (Installer.main env404 ManifestFile.absent).stages
        stageOrder = true ∧
    (Installer.main env404 ManifestFile.absent).success = false :=
  c3_failure_before_update_preserves_manifest env404 ManifestFile.absent rfl rfl

/-- Claim C10: the corruption recovery of `update_modpacks_json` covers only
JSON parse failures.  A manifest that is valid JSON but lacks a `packs`
entry raises at the key-membership check -- `KeyError` on a JSON object
without the key, `TypeError` on a JSON array -- with no recovery and no
write; and inside a full run such a manifest makes the run fail, whatever
the other stages do. -/
theorem c10_manifest_without_packs_fatal (k n l v : String) :
    (∀ fields, assocLookup fields "packs" = none →
      update_modpacks_json (ManifestFile.valid (Json.obj fields)) k n l v =
        { result := Except.error PyErr.keyError, writes := [] }) ∧
    (∀ elems,
      update_modpacks_json (ManifestFile.valid (Json.arr elems)) k n l v =
        { result := Except.error PyErr.typeError, writes := [] }) ∧
    (∀ env fields, assocLookup fields "packs" = none →
      (Installer.main env (ManifestFile.valid (Json.obj fields))).success
          = false ∧
      (Installer.main env (ManifestFile.valid (Json.obj fields))).manifest
          = ManifestFile.valid (Json.obj fields)) := by
  have hupd : ∀ fields, assocLookup fields "packs" = none →
      ∀ n2 l2 v2 : String,
      update_modpacks_json (ManifestFile.valid (Json.obj fields)) k n2 l2 v2 =
        { result := Except.error PyErr.keyError, writes := [] } := by
    intro fields hfp n2 l2 v2
    unfold update_modpacks_json
    simp [parseOrDefault, getItem, hfp]
  refine ⟨fun fields hfp => hupd fields hfp n l v, fun elems => rfl, ?_⟩
  intro env fields hfp
  cases hbp : env.basePathExists with
  | false => exact ⟨by simp [Installer.main, hbp], by simp [Installer.main, hbp]⟩
  | true =>
    have hmain : Installer.main env (ManifestFile.valid (Json.obj fields))
        = runPipeline env (ManifestFile.valid (Json.obj fields)) := by
      simp [Installer.main, hbp]
    have hu2 : update_modpacks_json (ManifestFile.valid (Json.obj fields))
        modpack_key modpack_name mod_loader version =
        { result := Except.error PyErr.keyError, writes := [] } := by
      unfold update_modpacks_json
      simp [parseOrDefault, getItem, hfp]
    rw [hmain]
    unfold runPipeline
    rw [hu2]
    cases hd1 : download_file modpack_zip_url "modpack.zip" env.modpackHttp with
    | error e1 => exact ⟨rfl, rfl⟩
    | ok b1 =>
      cases hv1 : is_valid_zip "modpack.zip" env.modpackZip with
      | false => exact ⟨rfl, rfl⟩
      | true =>
        cases he1 : extract_zip "modpack.zip" "modpack" env.modpackZip
            env.modpackExtractIo with
        | error e2 => exact ⟨rfl, rfl⟩
        | ok u1 =>
          cases hm1 : move_jar_files (some env.modpackFiles) modpack_path with
          | error e3 => exact ⟨rfl, rfl⟩
          | ok o1 =>
            cases hd2 : download_file addons_zip_url "addons.zip"
                env.addonsHttp with
            | error e4 => exact ⟨rfl, rfl⟩
            | ok b2 =>
              cases hv2 : is_valid_zip "addons.zip" env.addonsZip with
              | false => exact ⟨rfl, rfl⟩
              | true =>
                cases he2 : extract_zip "addons.zip" "addons" env.addonsZip
                    env.addonsExtractIo with
                | error e5 => exact ⟨rfl, rfl⟩
                | ok u2 =>
                  cases hm2 : move_jar_files (some env.addonsFiles)
                      addons_path with
                  | error e6 => exact ⟨rfl, rfl⟩
                  | ok o2 => exact ⟨rfl, rfl⟩

/-- Concrete instance of C10: a manifest holding the valid JSON document
with no entries at all raises `KeyError` and performs no write. -/
theorem c10_manifest_without_packs_fatal_witness :
    update_modpacks_json (ManifestFile.valid (Json.obj []))
        "christmas2024" "Christmas 2024" "fabric" "1.21.1"
      = { result := Except.error PyErr.keyError, writes := [] } :=
  (c10_manifest_without_packs_fatal "christmas2024" "Christmas 2024"
    "fabric" "1.21.1").1 [] rfl
